import Mathlib

/-!
Shallow embedding of the Modal Dialog Controller of `src/script.js`
(class `ModalManager`, plus the startup sequence of class `App`).

The DOM-mutating JavaScript methods are embedded as pure functions on an
explicit `ModalState`; outbound navigation (`window.open`) and the analytics
stub (`gtag`) are recorded in append-only logs inside the state.  Deferred
callbacks (`setTimeout`) are modelled by pending-flags on the state together
with explicit fire functions; a flag abstracts the set of pending timers of
one kind by whether at least one is pending, which is sound because every
pending timer of a kind performs the same idempotent assignment.
-/

namespace SiteModal

/-- A record of `ModalManager.productContents`: `title` and `content`
(the rich-text HTML fragment assigned to `modalContent.innerHTML`). -/
structure ProductRecord where
  title : String
  content : String
deriving Repr, DecidableEq

/-- Content string of productContents["gamma-indices"] in src/script.js. -/
def gamma_indices_content : String :=
  "\n          <h3>📈 Informação Profissional ao Seu Alcance</h3>\n          <p>Nosso Relatório de Posicionamento Gamma é um material profundo e detalhado, projetado para oferecer insights valiosos sobre o mercado. Ele traz um acompanhamento diário das posições dos market makers e de outros grandes players, em todas as classes de ativos.</p>\n          \n          <h3>📊 Dados Tratados por Especialistas:</h3>\n          <ul>\n            <li><strong>Posicionamento Gamma</strong> para os ativos SPX, Nasdaq e VIX</li>\n            <li><strong>Principais Suportes e Resistências</strong> identificados para cada dia de negociação</li>\n            <li><strong>Análises técnicas complementares</strong> baseadas em fluxo institucional</li>\n          </ul>\n          \n          <h3>🎯 Para Day Trade e Position Trading:</h3>\n          <p>Extraia o melhor dos dois mundos operacionais, com dados precisos que ajudam você a tomar decisões informadas e estratégicas em qualquer timeframe.</p>\n          \n          <h3>💎 Diferenciais:</h3>\n          <ul>\n            <li>Relatórios enviados diariamente antes da abertura do mercado</li>\n            <li>Análise baseada em dados reais de posicionamento institucional</li>\n            <li>Suporte técnico via Telegram para esclarecimentos</li>\n            <li>Histórico de assertividade comprovada</li>\n          </ul>\n          \n          <p><strong>Com esse relatório, você terá em mãos as mesmas informações utilizadas pelos maiores fundos de investimento, permitindo que você opere com a confiança de um profissional.</strong></p>\n          \n          <h3>📋 Instruções de Compra e Recebimento dos Relatórios:</h3>\n          <div style=\"background: rgba(212, 175, 55, 0.1); padding: 1.5rem; border-radius: 8px; margin: 1.5rem 0; border-left: 4px solid var(--primary-gold);\">\n            <ol style=\"margin: 0; padding-left: 1.5rem;\">\n              <li><strong>Efetue o pagamento do produto</strong></li>\n              <li><strong>Enviar comprovante pelo WhatsApp do Danilo</strong></li>\n              <li><strong>Receber o produto</strong></li>\n            </ol>\n            <p style=\"margin-top: 1rem; font-style: italic; color: #d4af37;\">Havendo dúvidas, entre em contato com a equipe</p>\n          </div>\n          \n          <div style=\"background: rgba(212, 175, 55, 0.1); padding: 1rem; border-radius: 8px; margin: 1.5rem 0;\">\n            <h3 style=\"color: #d4af37; margin-bottom: 0.5rem;\">💰 Investimento:</h3>\n            <p style=\"font-size: 1.2rem; margin: 0;\"><strong>R$ 300,00 por trimestre</strong></p>\n            <p style=\"font-size: 0.9rem; color: #aaa; margin: 0.5rem 0 0;\">Trabalhamos apenas com assinaturas trimestrais para garantir consistência nos resultados.</p>\n          </div>\n        "

/-- Content string of productContents["gamma-cripto"] in src/script.js. -/
def gamma_cripto_content : String :=
  "\n          <h3>🚀 Informação Profissional para Criptomoedas</h3>\n          <p>Nosso Relatório especializado em Criptomoedas e Commodities aplica a mesma metodologia gamma utilizada pelos grandes fundos, adaptada para os mercados de Bitcoin, Euro e Ouro.</p>\n          \n          <h3>📊 Dados Tratados por Especialistas:</h3>\n          <ul>\n            <li><strong>Posicionamento Gamma</strong> para Bitcoin, Euro e Ouro</li>\n            <li><strong>Principais Suportes e Resistências</strong> para operações diárias</li>\n            <li><strong>Análise de correlações</strong> entre os ativos monitorados</li>\n            <li><strong>Fluxo institucional</strong> em tempo real</li>\n          </ul>\n          \n          <h3>⚡ Para Day Trade e Position Trading:</h3>\n          <p>Opere com segurança nos mercados mais voláteis, tendo sempre à disposição os níveis mais importantes calculados através da metodologia Gamma.</p>\n          \n          <h3>🎯 Mercados Cobertos:</h3>\n          <ul>\n            <li><strong>Bitcoin (BTC)</strong> - Principal criptomoeda mundial</li>\n            <li><strong>Euro (EUR)</strong> - Moeda de referência global</li>\n            <li><strong>Ouro (Gold)</strong> - Ativo de proteção tradicional</li>\n          </ul>\n          \n          <h3>💎 Vantagens Exclusivas:</h3>\n          <ul>\n            <li>Relatórios específicos para mercados 24/7</li>\n            <li>Análise adaptada à volatilidade cripto</li>\n            <li>Correlações macro fundamentais</li>\n            <li>Suporte especializado via Telegram</li>\n          </ul>\n          \n          <h3>📋 Instruções de Compra e Recebimento dos Relatórios:</h3>\n          <div style=\"background: rgba(212, 175, 55, 0.1); padding: 1.5rem; border-radius: 8px; margin: 1.5rem 0; border-left: 4px solid var(--primary-gold);\">\n            <ol style=\"margin: 0; padding-left: 1.5rem;\">\n              <li><strong>Efetue o pagamento do produto</strong></li>\n              <li><strong>Enviar comprovante pelo WhatsApp do Danilo</strong></li>\n              <li><strong>Receber o produto</strong></li>\n            </ol>\n            <p style=\"margin-top: 1rem; font-style: italic; color: #d4af37;\">Havendo dúvidas, entre em contato com a equipe</p>\n          </div>\n          \n          <div style=\"background: rgba(212, 175, 55, 0.1); padding: 1rem; border-radius: 8px; margin: 1.5rem 0;\">\n            <h3 style=\"color: #d4af37; margin-bottom: 0.5rem;\">💰 Investimento:</h3>\n            <p style=\"font-size: 1.2rem; margin: 0;\"><strong>R$ 300,00 por trimestre</strong></p>\n            <p style=\"font-size: 0.9rem; color: #aaa; margin: 0.5rem 0 0;\">Assinatura trimestral para máxima consistência nos resultados.</p>\n          </div>\n        "

/-- Content string of productContents["indicador-gamma"] in src/script.js. -/
def indicador_gamma_content : String :=
  "\n          <h3>🛠️ Ferramenta Profissional de Trading</h3>\n          <p>O Indicador Gamma é a ferramenta indispensável para qualquer trader que deseja um operacional vencedor. Ele identifica, de forma automática e precisa, as melhores regiões para tomada de risco, alinhando suas operações com os maiores players do mercado.</p>\n          \n          <h3>🎯 Para Traders Profissionais:</h3>\n          <ul>\n            <li>Maximize seus lucros com zonas de alvo identificadas com precisão</li>\n            <li>Reduza drawdowns através de pontos de reversão calculados</li>\n            <li>Opere alinhado com o fluxo institucional</li>\n          </ul>\n          \n          <h3>📚 Para Traders Iniciantes:</h3>\n          <ul>\n            <li>Reduza os riscos operando nas zonas mais seguras</li>\n            <li>Aprenda através de sinais visuais claros</li>\n            <li>Desenvolva disciplina operacional</li>\n          </ul>\n          \n          <h3>📈 Ativos Suportados:</h3>\n          <ul>\n            <li><strong>ES & MES</strong> - S&P 500 Futures</li>\n            <li><strong>NQ & MNQ</strong> - Nasdaq Futures</li>\n            <li><strong>GC & MGC</strong> - Gold Futures</li>\n            <li><strong>MTB</strong> - Treasury Bond</li>\n            <li><strong>CL & MCL</strong> - Crude Oil</li>\n          </ul>\n          \n          <h3>💻 Plataformas Disponíveis:</h3>\n          <ul>\n            <li><strong>NinjaTrader</strong> - Versão completa com alertas</li>\n            <li><strong>Bookmap</strong> - Integração com order flow</li>\n          </ul>\n          \n          <h3>⚙️ Funcionalidades:</h3>\n          <ul>\n            <li>Identificação automática de zonas gamma</li>\n            <li>Alertas sonoros e visuais</li>\n            <li>Níveis de suporte e resistência dinâmicos</li>\n            <li>Compatível com múltiplos timeframes</li>\n          </ul>\n          \n          <h3>📋 Instruções de Instalação do Indicador:</h3>\n          <div style=\"background: rgba(212, 175, 55, 0.1); padding: 1.5rem; border-radius: 8px; margin: 1.5rem 0; border-left: 4px solid var(--primary-gold);\">\n            <ol style=\"margin: 0; padding-left: 1.5rem;\">\n              <li><strong>Efetue o pagamento do produto</strong></li>\n              <li><strong>Após pagamento enviar comprovante via WhatsApp</strong></li>\n              <li><strong>Instalar o indicador seguindo o tutorial</strong></li>\n            </ol>\n            <p style=\"margin-top: 1rem; font-style: italic; color: #d4af37;\">Havendo problemas na instalação ou dúvidas, entre em contato com a equipe</p>\n          </div>\n          \n          <div style=\"background: rgba(212, 175, 55, 0.1); padding: 1rem; border-radius: 8px; margin: 1.5rem 0;\">\n            <h3 style=\"color: #d4af37; margin-bottom: 0.5rem;\">💰 Investimento:</h3>\n            <p style=\"font-size: 1.2rem; margin: 0;\"><strong>R$ 300,00 por trimestre</strong></p>\n            <p style=\"font-size: 0.9rem; color: #aaa; margin: 0.5rem 0 0;\">Equivalente a R$ 100,00 mensais - Licença trimestral.</p>\n          </div>\n        "

/-- Content string of productContents["imersao"] in src/script.js. -/
def imersao_content : String :=
  "\n          <h3>🎓 O Curso Mais Completo do Mercado</h3>\n          <p>Este não é mais um curso teórico - é um <strong>mapa estratégico</strong> para operar profissionalmente com os institucionais. Aprenda onde comprar, onde vender, quais zonas de reversão identificar e como calcular alvos mesmo antes do pregão iniciar.</p>\n          \n          <h3>🧠 O Que Você Vai Dominar:</h3>\n          <p>Vamos direto ao ponto: você aprenderá a ler o <strong>Gamma Exposure (GEX)</strong>, a força oculta que define a volatilidade e a direção do mercado, especialmente com a explosão das opções 0DTE.</p>\n          \n          <h3>🛠️ Ferramentas Profissionais na Prática:</h3>\n          <ul>\n            <li><strong>SpotGamma</strong> - Plataforma premium de análise gamma</li>\n            <li><strong>MenthorQ</strong> - Sistema avançado de opções</li>\n            <li><strong>Bookmap</strong> - Leitura profissional de order flow</li>\n          </ul>\n          \n          <h3>📋 Ementa Completa (15 Módulos):</h3>\n          <ol>\n            <li><strong>Gamma Profile</strong> - Fundamentos e aplicação prática</li>\n            <li><strong>Interpretação de Ferramentas</strong> - SpotGamma e MenthorQ</li>\n            <li><strong>Cenários Gamma Positivo</strong> - Como identificar e operar</li>\n            <li><strong>Cenários Gamma Negativo</strong> - Estratégias específicas</li>\n            <li><strong>Leitura do Hiro</strong> - Ferramenta exclusiva SpotGamma</li>\n            <li><strong>Cálculo de Máximas e Mínimas</strong> - Metodologia própria</li>\n            <li><strong>Bookmap Avançado</strong> - Order flow e tape reading</li>\n            <li><strong>GexBot</strong> - Automação e alertas</li>\n            <li><strong>Análise do VIX</strong> - Indicador de volatilidade</li>\n            <li><strong>Skew Analysis</strong> - Assimetria de opções</li>\n            <li><strong>Estrutura a Termo</strong> - Curva de volatilidade</li>\n            <li><strong>Análise Pre-Market</strong> - Preparação diária</li>\n            <li><strong>Gestão de Risco</strong> - Proteção de capital</li>\n            <li><strong>Psicologia do Trading</strong> - Mentalidade vencedora</li>\n            <li><strong>Casos Práticos</strong> - Operações reais comentadas</li>\n          </ol>\n          \n          <h3>🎯 Metodologia de Ensino:</h3>\n          <ul>\n            <li><strong>100% Prático</strong> - Foco em aplicação real</li>\n            <li><strong>Aulas Gravadas</strong> - Acesso vitalício na Hotmart</li>\n            <li><strong>Suporte Direto</strong> - Telegram e WhatsApp com o mentor</li>\n            <li><strong>Atualizações Gratuitas</strong> - Conteúdo sempre atual</li>\n          </ul>\n          \n          <h3>📋 Instruções de Imersão 2.0:</h3>\n          <div style=\"background: rgba(212, 175, 55, 0.1); padding: 1.5rem; border-radius: 8px; margin: 1.5rem 0; border-left: 4px solid var(--primary-gold);\">\n            <ol style=\"margin: 0; padding-left: 1.5rem;\">\n              <li><strong>Efetue o pagamento</strong></li>\n              <li><strong>Após confirmação do pagamento via cartão ou pix o curso será liberado automaticamente</strong></li>\n              <li><strong>Pagamento em boleto bancário serão liberados até 48h após processamento do pagamento</strong></li>\n            </ol>\n          </div>\n          \n          <div style=\"background: rgba(212, 175, 55, 0.1); padding: 1rem; border-radius: 8px; margin: 1.5rem 0;\">\n            <h3 style=\"color: #d4af37; margin-bottom: 0.5rem;\">💰 Investimento:</h3>\n            <p style=\"font-size: 1.2rem; margin: 0;\"><strong>R$ 1.000,00</strong></p>\n            <p style=\"font-size: 0.9rem; color: #aaa; margin: 0.5rem 0 0;\">Curso completo + Suporte direto com o mentor via Telegram/WhatsApp</p>\n          </div>\n        "

/-- Content string of productContents["mentoria"] in src/script.js. -/
def mentoria_content : String :=
  "\n          <h3>👨‍🏫 Programa Personalizado e Exclusivo</h3>\n          <p>Chega de soluções genéricas. Sua jornada no mercado é única, seus desafios são específicos e sua curva de aprendizado precisa de uma atenção que nenhum curso em grupo pode oferecer.</p>\n          \n          <p><strong>A Mentoria Individual é um programa desenhado sob medida para você.</strong></p>\n          \n          <h3>🚀 Aceleração Máxima:</h3>\n          <p>Juntos, vamos dissecar sua performance atual, identificar suas principais falhas e construir um plano operacional robusto e completo, partindo do zero até a profissionalização.</p>\n          \n          <ul>\n            <li>Foco 100% nas suas necessidades específicas</li>\n            <li>Seja no cálculo de opções, leitura de fluxo no Bookmap ou montagem de pré-market profissional</li>\n            <li>Desenvolvimento de seu próprio sistema de trading</li>\n          </ul>\n          \n          <h3>🎯 Visão 360° do Mercado:</h3>\n          <p>Compilaremos toda a metodologia em um sistema coeso: análise macro, zonas de volume, exposição gamma e leitura de fluxo - <strong>o seu sistema personalizado</strong>.</p>\n          \n          <h3>📚 Conteúdo Programático Completo (16 Módulos):</h3>\n          <ol>\n            <li><strong>Fundamentos de Opções</strong> - Cálculos manuais e funcionamento</li>\n            <li><strong>Metodologia Gamma</strong> - SpotGamma, MenthorQ, Sharketo</li>\n            <li><strong>Gamma para Índices</strong> - Aplicação em mercados principais</li>\n            <li><strong>Gamma para Commodities</strong> - Ouro e moedas</li>\n            <li><strong>Gamma para Ações</strong> - Top 10 ações americanas</li>\n            <li><strong>Análise Macro Global</strong> - Preparação pre-market</li>\n            <li><strong>Correlações de Mercado</strong> - Juros, moedas, ouro, índices</li>\n            <li><strong>Volume Profile Avançado</strong> - Análise institucional</li>\n            <li><strong>Cenários Gamma</strong> - Positivo vs Negativo</li>\n            <li><strong>Order Flow no Bookmap</strong> - Leitura profissional</li>\n            <li><strong>Hiro e SpotGamma</strong> - Ferramentas premium</li>\n            <li><strong>GexBot</strong> - Automação de análises</li>\n            <li><strong>Plataformas Integradas</strong> - MenthorQ, SpotGamma, Sharketo</li>\n            <li><strong>Níveis Gamma</strong> - Suportes e resistências</li>\n            <li><strong>Automação com IA</strong> - Análises automatizadas</li>\n            <li><strong>Setup Completo</strong> - NinjaTrader, Bookmap, TradingView</li>\n          </ol>\n          \n          <h3>🎁 Bônus Exclusivos:</h3>\n          <ul>\n            <li><strong>3 Aulas Individuais 1x1</strong> com Danilo Petri</li>\n            <li>Cada encontro: 1h a 1h30 de duração</li>\n            <li>Intervalo mínimo de 4 dias entre encontros</li>\n            <li>Prazo: até 6 meses pós-aquisição</li>\n            <li>Suporte VIP via WhatsApp e Telegram</li>\n          </ul>\n          \n          <h3>💎 Garantias:</h3>\n          <ul>\n            <li><strong>Suporte técnico ilimitado</strong> durante todo o programa</li>\n            <li><strong>Acesso vitalício</strong> ao conteúdo</li>\n            <li><strong>Atualizações gratuitas</strong> por 12 meses</li>\n            <li><strong>Certificado de conclusão</strong></li>\n          </ul>\n          \n          <h3>📋 Instruções de Mentoria Individual:</h3>\n          <div style=\"background: rgba(212, 175, 55, 0.1); padding: 1.5rem; border-radius: 8px; margin: 1.5rem 0; border-left: 4px solid var(--primary-gold);\">\n            <ol style=\"margin: 0; padding-left: 1.5rem;\">\n              <li><strong>Efetue o pagamento</strong></li>\n              <li><strong>Após confirmação do pagamento via cartão ou pix o curso será liberado automaticamente</strong></li>\n              <li><strong>Pagamento em boleto bancário serão liberados até 48h após processamento do pagamento</strong></li>\n            </ol>\n          </div>\n          \n          <div style=\"background: linear-gradient(145deg, rgba(212, 175, 55, 0.15), rgba(255, 215, 0, 0.1)); padding: 1.5rem; border-radius: 12px; margin: 2rem 0; border: 1px solid rgba(212, 175, 55, 0.3);\">\n            <h3 style=\"color: #ffd700; margin-bottom: 0.5rem;\">👑 Investimento Premium:</h3>\n            <p style=\"font-size: 1.4rem; margin: 0; font-weight: 700;\"><strong>R$ 2.799,00</strong></p>\n            <p style=\"font-size: 1rem; color: #d4af37; margin: 0.5rem 0 0;\">Programa completo + 3 mentorias individuais 1x1</p>\n          </div>\n        "

/-- `ModalManager.paymentLinks` from `src/script.js` (constructor). -/
def paymentLinks (id : String) : Option String :=
  if id = "gamma-indices" then some "https://pay.infinitepay.io/danilopetri_trader/VC1D-5wgZ9JkIvb-300,00"
  else if id = "gamma-cripto" then some "https://link.infinitepay.io/danilopetri_trader/VC1D-9zjvyg6L-299,99"
  else if id = "indicador-gamma" then some "https://pay.infinitepay.io/danilopetri_trader/VC1D-6qDIKOF6F-300,00"
  else if id = "imersao" then some "https://pay.hotmart.com/B99375401O"
  else if id = "mentoria" then some "https://pay.hotmart.com/H95976212G"
  else none

/-- The local `productNames` map inside `ModalManager.handlePurchase`. -/
def productNames (id : String) : Option String :=
  if id = "gamma-indices" then some "Relatório Gamma - Índices"
  else if id = "gamma-cripto" then some "Relatório Gamma - Cripto"
  else if id = "indicador-gamma" then some "Indicador Gamma"
  else if id = "imersao" then some "Imersão 2.0"
  else if id = "mentoria" then some "Mentoria Individual"
  else none

/-- `ModalManager.productContents` from `src/script.js` (constructor). -/
def productContents (id : String) : Option ProductRecord :=
  if id = "gamma-indices" then some ⟨"Relatório Gamma - Índices", gamma_indices_content⟩
  else if id = "gamma-cripto" then some ⟨"Relatório Gamma - Cripto", gamma_cripto_content⟩
  else if id = "indicador-gamma" then some ⟨"Indicador Gamma", indicador_gamma_content⟩
  else if id = "imersao" then some ⟨"Imersão 2.0", imersao_content⟩
  else if id = "mentoria" then some ⟨"Mentoria Individual", mentoria_content⟩
  else none

/-- The five ids that key `productContents` (and `paymentLinks` and
`productNames`), in source order. -/
def catalogIds : List String :=
  ["gamma-indices", "gamma-cripto", "indicador-gamma", "imersao", "mentoria"]

/-- JavaScript string coercion of a possibly-`undefined` value, as it happens
in template literals and property keys: `undefined` renders as the literal
string "undefined". -/
def jsStr : Option String → String
  | some s => s
  | none => "undefined"

/-! ### UTF-8 and `encodeURIComponent`

`handlePurchase` builds the WhatsApp deep link with `encodeURIComponent`.
We embed it byte-precisely: UTF-8 encode, keep the unreserved characters
(`A–Z a–z 0–9 - _ . ! ~ * ' ( )`), percent-escape every other byte with
uppercase hex. -/

/-- UTF-8 encoding of a single code point, as a list of byte values. -/
def utf8Char (c : Char) : List Nat :=
  let n := c.toNat
  if n < 128 then [n]
  else if n < 2048 then [192 + n / 64, 128 + n % 64]
  else if n < 65536 then [224 + n / 4096, 128 + (n / 64) % 64, 128 + n % 64]
  else [240 + n / 262144, 128 + (n / 4096) % 64, 128 + (n / 64) % 64, 128 + n % 64]

/-- UTF-8 encoding of a string, as a list of byte values. -/
def utf8Bytes (s : String) : List Nat :=
  s.data.flatMap utf8Char

/-- The bytes `encodeURIComponent` leaves unescaped:
`A–Z a–z 0–9` and `- _ . ! ~ * ' ( )`. -/
def isUnreservedByte (b : Nat) : Bool :=
  (65 ≤ b && b ≤ 90) || (97 ≤ b && b ≤ 122) || (48 ≤ b && b ≤ 57) ||
  b = 45 || b = 95 || b = 46 || b = 33 || b = 126 || b = 42 || b = 39 || b = 40 || b = 41

/-- Uppercase hexadecimal digit for a value below 16. -/
def hexDigitChar (n : Nat) : Char :=
  if n < 10 then Char.ofNat (48 + n) else Char.ofNat (55 + n)

/-- Percent-escape one byte (or keep it when unreserved). -/
def percentEncodeByte (b : Nat) : List Char :=
  if isUnreservedByte b then [Char.ofNat b]
  else ['%', hexDigitChar (b / 16), hexDigitChar (b % 16)]

/-- JavaScript `encodeURIComponent`. -/
def encodeURIComponent (s : String) : String :=
  String.mk ((utf8Bytes s).flatMap percentEncodeByte)

/-- Value of one hexadecimal digit character (either case), if any. -/
def hexVal (c : Char) : Option Nat :=
  let n := c.toNat
  if 48 ≤ n && n ≤ 57 then some (n - 48)
  else if 65 ≤ n && n ≤ 70 then some (n - 55)
  else if 97 ≤ n && n ≤ 102 then some (n - 87)
  else none

/-- Percent-decoding of a URI component back to its byte sequence:
`%XY` becomes one byte, a plain ASCII character stands for itself,
anything else is rejected. -/
def percentDecode : List Char → Option (List Nat)
  | [] => some []
  | '%' :: h1 :: h2 :: rest => do
      let a ← hexVal h1
      let b ← hexVal h2
      let t ← percentDecode rest
      some ((16 * a + b) :: t)
  | '%' :: _ => none
  | c :: rest =>
      if c.toNat < 128 then (percentDecode rest).map (c.toNat :: ·) else none

/-- Whether `pat` occurs at the start of `l`. -/
def leadsWith : List Nat → List Nat → Bool
  | [], _ => true
  | _ :: _, [] => false
  | a :: as, b :: bs => a == b && leadsWith as bs

/-- Whether `pat` occurs contiguously anywhere inside `l`. -/
def containsSeq (pat : List Nat) : List Nat → Bool
  | [] => leadsWith pat []
  | b :: bs => leadsWith pat (b :: bs) || containsSeq pat bs

/-! ### Host document and modal state -/

/-- The part of the host document the controller reads: the elements that
carry a `data-product` attribute, as `(uid, attribute value)` in document
order (`closeModal` queries the first match), and an abstraction of
`modal.querySelectorAll(focusableElementsString)`: the ordered uids of the
focusable elements inside the dialog once `modalContent.innerHTML` holds a
given content string (`setupFocusManagement`). -/
structure Doc where
  elems : List (Nat × String)
  focusablesIn : String → List Nat

/-- `document.querySelector('[data-product="<attr>"]')`: uid of the first
element whose `data-product` attribute equals `attr`. -/
def firstWithProduct (doc : Doc) (attr : String) : Option Nat :=
  (doc.elems.find? (fun e => e.2 = attr)).map (fun e => e.1)

/-- The mutable state `ModalManager` works on, plus effect logs.
`currentProduct` is the `currentProduct` field (absent until the first
successful open, like the uninitialized JS field); `modalShow` is whether the
`show` class is on the dialog; `modalDisplay`/`bodyOverflow` are the inline
styles; `pendingHide`/`pendingFocus` record a pending deferred hide
(`closeModal`) or deferred focus (`openModal`); `focusables` caches
`setupFocusManagement`; `focused` is `document.activeElement` (by uid,
`none` for anything outside the modelled elements); `opened` logs
`window.open(url, target, features)` calls; `analytics` logs
`gtag` events as `(event name, product id)`. -/
structure ModalState where
  isOpen : Bool
  currentProduct : Option String
  modalTitle : String
  modalContent : String
  modalShow : Bool
  modalDisplay : String
  bodyOverflow : String
  pendingHide : Bool
  pendingFocus : Bool
  focusables : List Nat
  focused : Option Nat
  opened : List (String × String × String)
  analytics : List (String × String)
deriving Repr, DecidableEq

/-- The state right after the `ModalManager` constructor runs on a fresh
page: modal closed, no inline styles set, no product ever selected. -/
def initialModalState : ModalState where
  isOpen := false
  currentProduct := none
  modalTitle := ""
  modalContent := ""
  modalShow := false
  modalDisplay := ""
  bodyOverflow := ""
  pendingHide := false
  pendingFocus := false
  focusables := []
  focused := none
  opened := []
  analytics := []

/-- `ModalManager.openModal(event)`.  `trigger` is `event.currentTarget` as
`(uid, data-product attribute)`.  An id missing from `productContents` is
refused before any mutation; otherwise the record is rendered, the dialog
shown, scroll locked, focusables recomputed, a deferred focus scheduled, and
the open tracked. -/
def openModal (doc : Doc) (trigger : Nat × String) (st : ModalState) : ModalState :=
  let productId := trigger.2
  match productContents productId with
  | none => st
  | some product =>
      { st with
        modalTitle := product.title
        modalContent := product.content
        modalShow := true
        modalDisplay := "flex"
        isOpen := true
        currentProduct := some productId
        bodyOverflow := "hidden"
        focusables := doc.focusablesIn product.content
        pendingFocus := true
        analytics := st.analytics ++ [("modal_open", productId)] }

/-- `ModalManager.closeModal()`.  Removes the `show` class, clears `isOpen`,
restores body scroll, schedules the deferred hide, and focuses the first
document element whose `data-product` attribute equals the (JS-stringified)
`currentProduct`, when one exists.  Note: `currentProduct` itself is left as
is — the source never clears it. -/
def closeModal (doc : Doc) (st : ModalState) : ModalState :=
  let st1 := { st with
    modalShow := false
    isOpen := false
    bodyOverflow := "auto"
    pendingHide := true }
  match firstWithProduct doc (jsStr st.currentProduct) with
  | some uid => { st1 with focused := some uid }
  | none => st1

/-- Firing the deferred hide scheduled by `closeModal`
(`setTimeout(() => this.modal.style.display = 'none', ANIMATION_DURATION)`). -/
def fireDeferredHide (st : ModalState) : ModalState :=
  if st.pendingHide then { st with modalDisplay := "none", pendingHide := false } else st

/-- Firing the deferred focus scheduled by `openModal`
(`setTimeout(() => { if (this.firstFocusableElement) ... .focus() }, 100)`). -/
def fireDeferredFocus (st : ModalState) : ModalState :=
  if st.pendingFocus then
    match st.focusables.head? with
    | some f => { st with focused := some f, pendingFocus := false }
    | none => { st with pendingFocus := false }
  else st

/-- `ModalManager.handlePurchase()`.  Opens the payment link of the current
product when `paymentLinks` has one; otherwise builds the WhatsApp deep link
from the `productNames` lookup (JS renders a missed lookup as "undefined"),
opens it; then tracks the purchase intent and closes the modal.  The JS
method never throws: every step is total, which this embedding mirrors by
being a total function. -/
def handlePurchase (doc : Doc) (st : ModalState) : ModalState :=
  let key := jsStr st.currentProduct
  let st1 :=
    match paymentLinks key with
    | some paymentLink =>
        { st with opened := st.opened ++ [(paymentLink, "_blank", "noopener,noreferrer")] }
    | none =>
        let productName := jsStr (productNames key)
        let message := "Olá! Tenho interesse no produto: " ++ productName ++
          ". Poderia me enviar mais informações sobre como adquirir?"
        let whatsappURL := "https://wa.me/5511958300001?text=" ++ encodeURIComponent message
        { st with opened := st.opened ++ [(whatsappURL, "_blank", "noopener,noreferrer")] }
  let st2 := { st1 with analytics := st1.analytics ++ [("purchase_intent", key)] }
  closeModal doc st2

/-- `ModalManager.handleTabKey(event)`: the focus trap.  With the dialog's
focusable elements nonempty, shift-tab on the first wraps to the last and
plain tab on the last wraps to the first, consuming the event
(`preventDefault`, the returned `Bool`); anything else is left to the
browser.  With no focusables, `firstFocusableElement` is `undefined` and the
strict comparison with `document.activeElement` can never hold. -/
def handleTabKey (shift : Bool) (st : ModalState) : ModalState × Bool :=
  match st.focusables.head?, st.focusables.getLast? with
  | some f, some l =>
      if shift then
        if st.focused = some f then ({ st with focused := some l }, true) else (st, false)
      else
        if st.focused = some l then ({ st with focused := some f }, true) else (st, false)
  | _, _ => (st, false)

/-- The document-level `keydown` listener installed by `ModalManager.init`:
Escape while open closes, Tab while open runs the trap, everything else is
untouched.  (The two sequential `if`s in the source cannot both fire on one
event, since Escape is not Tab.) -/
def keydown (doc : Doc) (key : String) (shift : Bool) (st : ModalState) : ModalState × Bool :=
  if st.isOpen && key == "Escape" then (closeModal doc st, false)
  else if st.isOpen && key == "Tab" then handleTabKey shift st
  else (st, false)

/-! ### Startup wiring (`ModalManager.init` and `App.initializeComponents`) -/

/-- Presence in the host document of the DOM nodes `ModalManager`'s
constructor queries and `init` wires. -/
structure StartupEnv where
  modalPresent : Bool
  closeBtnPresent : Bool
  overlayPresent : Bool
  buyBtnPresent : Bool
deriving Repr, DecidableEq

/-- `ModalManager.init` as run from the constructor.  `this.modal` absent
(`document.getElementById('productModal')` returned null) short-circuits
before any wiring (`ok false`); otherwise each `addEventListener` on a null
query result throws a `TypeError`, modelled with `Except.error`; full wiring
is `ok true`.  (`productButtons.forEach` never throws: an empty NodeList is
iterated zero times.) -/
def modalManagerInit (env : StartupEnv) : Except String Bool :=
  if !env.modalPresent then Except.ok false
  else if !env.closeBtnPresent then Except.error "TypeError: this.closeBtn is null"
  else if !env.overlayPresent then Except.error "TypeError: this.overlay is null"
  else if !env.buyBtnPresent then Except.error "TypeError: this.buyBtn is null"
  else Except.ok true

/-- The nine components `App.initializeComponents` constructs, in source
order. -/
def componentOrder : List String :=
  ["loadingManager", "headerManager", "dropdownManager", "smoothScroller",
   "modalManager", "animationObserver", "performanceOptimizer", "errorHandler",
   "mobileMenu"]

/-- Whether a component's constructor completes, in the given environment.
Only `ModalManager`'s constructor (which calls `init`) can throw here; the
others are total with respect to the modelled environment. -/
def componentInit (env : StartupEnv) (name : String) : Except String Unit :=
  if name = "modalManager" then (modalManagerInit env).map (fun _ => ())
  else Except.ok ()

/-- Run constructors in order, stopping at the first throw (the single
`try`/`catch` around the whole body of `App.initializeComponents` swallows
the exception but skips everything after the throwing line).  Returns the
components actually constructed. -/
def runComponents (env : StartupEnv) : List String → List String
  | [] => []
  | c :: cs =>
      match componentInit env c with
      | Except.ok _ => c :: runComponents env cs
      | Except.error _ => []

/-- `App.initializeComponents`: the list of components that finish
initializing at startup. -/
def initializeComponents (env : StartupEnv) : List String :=
  runComponents env componentOrder

/-! ### Helper lemmas -/

theorem closeModal_opened (doc : Doc) (st : ModalState) :
    (closeModal doc st).opened = st.opened := by
  unfold closeModal
  split <;> rfl

theorem closeModal_isOpen (doc : Doc) (st : ModalState) :
    (closeModal doc st).isOpen = false := by
  unfold closeModal
  split <;> rfl

theorem closeModal_analytics (doc : Doc) (st : ModalState) :
    (closeModal doc st).analytics = st.analytics := by
  unfold closeModal
  split <;> rfl

theorem closeModal_currentProduct (doc : Doc) (st : ModalState) :
    (closeModal doc st).currentProduct = st.currentProduct := by
  unfold closeModal
  split <;> rfl

theorem closeModal_bodyOverflow (doc : Doc) (st : ModalState) :
    (closeModal doc st).bodyOverflow = "auto" := by
  unfold closeModal
  split <;> rfl

/-- `paymentLinks` and `productNames` are keyed by the same five ids, so a
missed name lookup is also a missed link lookup. -/
theorem productNames_none_paymentLinks (s : String) (h : productNames s = none) :
    paymentLinks s = none := by
  unfold paymentLinks
  split_ifs <;> simp_all [productNames]

/-- Converse direction of the key coincidence. -/
theorem paymentLinks_none_productNames (s : String) (h : paymentLinks s = none) :
    productNames s = none := by
  unfold productNames
  split_ifs <;> simp_all [paymentLinks]

/-- The WhatsApp message `handlePurchase` builds when the `productNames`
lookup misses (JS renders the miss as the string "undefined"). -/
def undefinedMessage : String :=
  "Olá! Tenho interesse no produto: undefined. Poderia me enviar mais informações sobre como adquirir?"

/-! ### Claims -/

/-- C1: in every state whose current product has a payment URL in the
catalog, `handlePurchase` performs exactly one navigation, to that URL, in a
new `_blank` browsing context with `noopener,noreferrer` features, and then
transitions the modal to Closed (`isOpen` becomes false). -/
theorem purchase_opens_payment_link (doc : Doc) (st : ModalState) (url : String)
    (h : paymentLinks (jsStr st.currentProduct) = some url) :
    (handlePurchase doc st).opened = st.opened ++ [(url, "_blank", "noopener,noreferrer")] ∧
    (handlePurchase doc st).isOpen = false := by
  constructor
  · simp [handlePurchase, h, closeModal_opened]
  · simp [handlePurchase, closeModal_isOpen]

def docA : Doc := ⟨[(1, "imersao")], fun _ => []⟩

def stA : ModalState := { initialModalState with currentProduct := some "imersao" }

/-- Witness for C1 at the concrete state whose current product is
"imersao". -/
theorem purchase_opens_payment_link_witness :
    paymentLinks (jsStr stA.currentProduct) = some "https://pay.hotmart.com/B99375401O" ∧
    ((handlePurchase docA stA).opened =
      stA.opened ++ [("https://pay.hotmart.com/B99375401O", "_blank", "noopener,noreferrer")] ∧
     (handlePurchase docA stA).isOpen = false) :=
  ⟨by rfl, purchase_opens_payment_link docA stA "https://pay.hotmart.com/B99375401O" (by rfl)⟩

/-- C3: for every product id that keys the catalog, `openModal` renders
exactly that record: the displayed title is the record's title, the displayed
body is the record's content markup, and the state becomes Open with
`currentProduct` equal to the id. -/
theorem openModal_renders_record (doc : Doc) (trigger : Nat × String) (st : ModalState)
    (p : ProductRecord) (h : productContents trigger.2 = some p) :
    (openModal doc trigger st).modalTitle = p.title ∧
    (openModal doc trigger st).modalContent = p.content ∧
    (openModal doc trigger st).isOpen = true ∧
    (openModal doc trigger st).currentProduct = some trigger.2 := by
  simp [openModal, h]

def docB : Doc := ⟨[(1, "gamma-indices")], fun _ => [10, 11]⟩

/-- Witness for C3 at the concrete id "gamma-indices". -/
theorem openModal_renders_record_witness :
    productContents "gamma-indices" =
      some ⟨"Relatório Gamma - Índices", gamma_indices_content⟩ ∧
    ((openModal docB (1, "gamma-indices") initialModalState).modalTitle =
        "Relatório Gamma - Índices" ∧
     (openModal docB (1, "gamma-indices") initialModalState).modalContent =
        gamma_indices_content ∧
     (openModal docB (1, "gamma-indices") initialModalState).isOpen = true ∧
     (openModal docB (1, "gamma-indices") initialModalState).currentProduct =
        some "gamma-indices") :=
  ⟨by rfl, openModal_renders_record docB (1, "gamma-indices") initialModalState
    ⟨"Relatório Gamma - Índices", gamma_indices_content⟩ (by rfl)⟩

/-- C4: for every product id missing from the catalog, `openModal` is a
strict no-op: the whole state (open flag, rendered content, scroll lock,
current product, logs) is returned unchanged, and nothing is thrown. -/
theorem openModal_unknown_id_noop (doc : Doc) (trigger : Nat × String) (st : ModalState)
    (h : productContents trigger.2 = none) :
    openModal doc trigger st = st := by
  simp [openModal, h]

def docC : Doc := ⟨[(1, "gamma-indices")], fun _ => []⟩

def stC : ModalState :=
  { initialModalState with isOpen := true, currentProduct := some "gamma-cripto" }

/-- Witness for C4: opening the unknown id "course-x" changes nothing, even
while the modal is already open on another id. -/
theorem openModal_unknown_id_noop_witness :
    productContents "course-x" = none ∧
    openModal docC (1, "course-x") stC = stC :=
  ⟨by rfl, openModal_unknown_id_noop docC (1, "course-x") stC (by rfl)⟩

def docD : Doc := ⟨[(1, "imersao"), (2, "imersao")], fun _ => []⟩

/-- Counterexample to C5: with two trigger elements carrying
`data-product="imersao"`, opening from the second and closing focuses the
FIRST document match (uid 1), not the element that triggered the open
(uid 2); and the current product id is not cleared. -/
theorem close_restores_first_match_not_trigger :
    (closeModal docD (openModal docD (2, "imersao") initialModalState)).focused ≠ some 2 ∧
    (closeModal docD (openModal docD (2, "imersao") initialModalState)).currentProduct ≠ none := by
  constructor
  · intro h
    simp [openModal, closeModal, productContents, firstWithProduct, jsStr, docD,
      List.find?] at h
  · intro h
    simp [openModal, closeModal, productContents, firstWithProduct, jsStr, docD,
      List.find?] at h

/-- C5 as amended: every `openModal` on a valid id followed by `closeModal`
unlocks page scrolling and moves keyboard focus to the first document element
whose `data-product` attribute equals the opened id, whenever such an element
exists (this is the trigger element exactly when it is the first such
element); the current product id is retained, not cleared. -/
theorem open_close_restores_focus (doc : Doc) (trigger : Nat × String) (st : ModalState)
    (p : ProductRecord) (u : Nat)
    (hp : productContents trigger.2 = some p)
    (hu : firstWithProduct doc trigger.2 = some u) :
    (closeModal doc (openModal doc trigger st)).focused = some u ∧
    (closeModal doc (openModal doc trigger st)).bodyOverflow = "auto" ∧
    (closeModal doc (openModal doc trigger st)).isOpen = false ∧
    (closeModal doc (openModal doc trigger st)).currentProduct = some trigger.2 := by
  simp [openModal, closeModal, hp, jsStr, hu]

def docE : Doc := ⟨[(7, "mentoria")], fun _ => []⟩

/-- Witness for the amended C5 at the concrete id "mentoria", whose unique
trigger element (uid 7) regains focus. -/
theorem open_close_restores_focus_witness :
    productContents "mentoria" = some ⟨"Mentoria Individual", mentoria_content⟩ ∧
    firstWithProduct docE "mentoria" = some 7 ∧
    ((closeModal docE (openModal docE (7, "mentoria") initialModalState)).focused = some 7 ∧
     (closeModal docE (openModal docE (7, "mentoria") initialModalState)).bodyOverflow = "auto" ∧
     (closeModal docE (openModal docE (7, "mentoria") initialModalState)).isOpen = false ∧
     (closeModal docE (openModal docE (7, "mentoria") initialModalState)).currentProduct =
       some "mentoria") :=
  ⟨by rfl, by rfl,
   open_close_restores_focus docE (7, "mentoria") initialModalState
     ⟨"Mentoria Individual", mentoria_content⟩ 7 (by rfl) (by rfl)⟩

def docF : Doc := ⟨[], fun _ => []⟩

/-- Counterexample to C6: calling `closeModal` in the Closed state right
after startup is not a no-op — it mutates the state (the body overflow style
becomes "auto" and a deferred hide gets scheduled). -/
theorem close_from_closed_not_noop :
    initialModalState.isOpen = false ∧
    closeModal docF initialModalState ≠ initialModalState := by
  refine ⟨rfl, fun h => ?_⟩
  have hb := congrArg ModalState.bodyOverflow h
  simp [closeModal, firstWithProduct, docF, jsStr, initialModalState] at hb

/-- C6 as amended: `closeModal` is safe when already closed — it never
navigates, never tracks, leaves `isOpen` false — and it is idempotent:
a second call produces the state of the first (so calling it twice from
Closed has no effect beyond calling it once); but it is not a strict no-op,
since it (re)applies the overflow style, schedules a deferred hide, and may
move focus to the current product's trigger element. -/
theorem closeModal_idempotent (doc : Doc) (st : ModalState) :
    closeModal doc (closeModal doc st) = closeModal doc st ∧
    (closeModal doc st).isOpen = false ∧
    (closeModal doc st).opened = st.opened ∧
    (closeModal doc st).analytics = st.analytics := by
  refine ⟨?_, closeModal_isOpen doc st, closeModal_opened doc st, closeModal_analytics doc st⟩
  cases h : firstWithProduct doc (jsStr st.currentProduct) <;>
    simp [closeModal, h]

/-- C7: while the modal is Open, a forward-tab on the last focusable element
wraps focus to the first and consumes the event, a backward-tab on the first
wraps to the last, a tab anywhere else is left to the browser, and any key
other than Tab (and Escape, which is the close trigger of the state machine,
not part of the trap) passes through with focus and state untouched. -/
theorem tab_trap_wraps (doc : Doc) (st : ModalState) (f l : Nat)
    (hopen : st.isOpen = true)
    (hf : st.focusables.head? = some f) (hl : st.focusables.getLast? = some l) :
    (st.focused = some l → keydown doc "Tab" false st = ({ st with focused := some f }, true)) ∧
    (st.focused = some f → keydown doc "Tab" true st = ({ st with focused := some l }, true)) ∧
    (st.focused ≠ some l → keydown doc "Tab" false st = (st, false)) ∧
    (st.focused ≠ some f → keydown doc "Tab" true st = (st, false)) ∧
    (∀ key : String, ∀ shift : Bool, key ≠ "Tab" → key ≠ "Escape" →
      keydown doc key shift st = (st, false)) := by
  refine ⟨?_, ?_, ?_, ?_, ?_⟩
  · intro hfoc
    simp [keydown, hopen, handleTabKey, hf, hl, hfoc]
  · intro hfoc
    simp [keydown, hopen, handleTabKey, hf, hl, hfoc]
  · intro hfoc
    simp [keydown, hopen, handleTabKey, hf, hl, hfoc]
  · intro hfoc
    simp [keydown, hopen, handleTabKey, hf, hl, hfoc]
  · intro key shift hk he
    simp [keydown, hk, he]

def docG : Doc := ⟨[(1, "imersao")], fun _ => [10, 11, 12]⟩

def stG : ModalState :=
  { initialModalState with isOpen := true, focusables := [10, 11, 12], focused := some 12 }

/-- Witness for C7: with focusables 10, 11, 12 and focus on the last (12), a
forward tab wraps focus to the first (10) and consumes the event. -/
theorem tab_trap_wraps_witness :
    stG.isOpen = true ∧
    stG.focusables.head? = some 10 ∧
    stG.focusables.getLast? = some 12 ∧
    stG.focused = some 12 ∧
    keydown docG "Tab" false stG = ({ stG with focused := some 10 }, true) :=
  ⟨rfl, rfl, rfl, rfl,
   (tab_trap_wraps docG stG 10 12 rfl rfl rfl).1 rfl⟩

/-- The form `handlePurchase` gives the WhatsApp fallback navigation when the
payment-link lookup misses. -/
theorem handlePurchase_fallback (doc : Doc) (st : ModalState)
    (hpay : paymentLinks (jsStr st.currentProduct) = none) :
    (handlePurchase doc st).opened = st.opened ++
      [("https://wa.me/5511958300001?text=" ++ encodeURIComponent
          ("Olá! Tenho interesse no produto: " ++ jsStr (productNames (jsStr st.currentProduct)) ++
           ". Poderia me enviar mais informações sobre como adquirir?"),
        "_blank", "noopener,noreferrer")] := by
  simp [handlePurchase, hpay, closeModal_opened]

def docI : Doc := ⟨[(3, "imersao")], fun _ => [20]⟩

/-- The state after a rapid open("imersao"), close, open("imersao") sequence,
before any deferred callback has fired. -/
def raceState : ModalState :=
  openModal docI (3, "imersao") (closeModal docI (openModal docI (3, "imersao") initialModalState))

/-- C8, demonstrated at the failing input: after open/close/open, the
deferred hide scheduled by the close is still pending (`openModal` never
cancels it), and when it fires it sets the dialog surface's display to
"none" while the modal is still open — the dialog becomes invisible right
after the final open, which the claim requires to never happen. -/
theorem stale_deferred_hide_fires_after_reopen :
    raceState.isOpen = true ∧
    raceState.modalDisplay = "flex" ∧
    raceState.pendingHide = true ∧
    (fireDeferredHide raceState).modalDisplay = "none" ∧
    (fireDeferredHide raceState).isOpen = true := by
  decide

/-- Whether a modelled constructor threw. -/
def exceptThrew : Except String Bool → Bool
  | Except.error _ => true
  | Except.ok _ => false

def envBad : StartupEnv := ⟨true, false, true, true⟩

/-- Counterexample to C9: when modal wiring fails by throwing (the dialog
surface is present but its close control is absent), the single page-level
`try`/`catch` swallows the error after the fact, so every component listed
after the modal manager is never initialized — the failure does prevent other
components of the page from being initialized. -/
theorem modal_wiring_throw_blocks_other_components :
    exceptThrew (modalManagerInit envBad) = true ∧
    "mobileMenu" ∈ componentOrder ∧
    "mobileMenu" ∉ initializeComponents envBad ∧
    "animationObserver" ∉ initializeComponents envBad := by
  decide

/-- C9 as amended: when the wiring failure is the dialog surface being
absent from the host document, the controller disables itself by skipping
all of its wiring (the `if (!this.modal) return` guard, reached without
throwing), and every component of the page is initialized; a wiring failure
that throws instead (a missing close control, overlay, or buy button while
the surface is present) skips the initialization of every component after
the modal manager. -/
theorem modal_absent_disables_controller (env : StartupEnv)
    (h : env.modalPresent = false) :
    modalManagerInit env = Except.ok false ∧
    initializeComponents env = componentOrder := by
  constructor
  · simp [modalManagerInit, h]
  · simp [initializeComponents, componentOrder, runComponents, componentInit,
      modalManagerInit, Except.map, h]

def envNoModal : StartupEnv := ⟨false, false, false, false⟩

/-- Witness for the amended C9 in the environment with no modal DOM at all. -/
theorem modal_absent_disables_controller_witness :
    envNoModal.modalPresent = false ∧
    (modalManagerInit envNoModal = Except.ok false ∧
     initializeComponents envNoModal = componentOrder) :=
  ⟨rfl, modal_absent_disables_controller envNoModal rfl⟩

/-- C10: whenever `handlePurchase` runs while the current product id keys
neither map (for instance before any successful open, when the field is
still undefined), it performs exactly one navigation — to the WhatsApp URL
whose percent-decoded text embeds the literal "undefined" in place of a
product title — and then runs the close path (scroll unlocked, modal
closed); the embedding is a total function, mirroring that no exception is
raised on this path. -/
theorem purchase_unknown_product (doc : Doc) (st : ModalState)
    (h : productNames (jsStr st.currentProduct) = none) :
    (handlePurchase doc st).opened = st.opened ++
      [("https://wa.me/5511958300001?text=" ++ encodeURIComponent undefinedMessage,
        "_blank", "noopener,noreferrer")] ∧
    percentDecode (encodeURIComponent undefinedMessage).data = some (utf8Bytes undefinedMessage) ∧
    containsSeq (utf8Bytes "undefined") (utf8Bytes undefinedMessage) = true ∧
    (handlePurchase doc st).isOpen = false ∧
    (handlePurchase doc st).bodyOverflow = "auto" := by
  have hpay := productNames_none_paymentLinks _ h
  refine ⟨?_, ?_, ?_, ?_, ?_⟩
  · rw [handlePurchase_fallback doc st hpay, h]; rfl
  · set_option maxRecDepth 10000 in decide
  · set_option maxRecDepth 10000 in decide
  · simp [handlePurchase, closeModal_isOpen]
  · simp [handlePurchase, closeModal_bodyOverflow]

def docH : Doc := ⟨[], fun _ => []⟩

/-- Witness for C10: purchasing from the fresh state, before any open, with
`currentProduct` still undefined. -/
theorem purchase_unknown_product_witness :
    productNames (jsStr initialModalState.currentProduct) = none ∧
    ((handlePurchase docH initialModalState).opened = initialModalState.opened ++
      [("https://wa.me/5511958300001?text=" ++ encodeURIComponent undefinedMessage,
        "_blank", "noopener,noreferrer")] ∧
     percentDecode (encodeURIComponent undefinedMessage).data = some (utf8Bytes undefinedMessage) ∧
     containsSeq (utf8Bytes "undefined") (utf8Bytes undefinedMessage) = true ∧
     (handlePurchase docH initialModalState).isOpen = false ∧
     (handlePurchase docH initialModalState).bodyOverflow = "auto") :=
  ⟨by rfl, purchase_unknown_product docH initialModalState (by rfl)⟩

def stH : ModalState := { initialModalState with currentProduct := some "course-b" }

set_option maxRecDepth 10000 in
/-- Counterexample to C2: take the state whose current product id is
"course-b", for which the payment URL is indeed absent.  The fallback opens
the WhatsApp URL, but its percent-decoded text cannot contain "the product's
display title": "course-b" has no record, hence no display title (the text
embeds "undefined"), and in fact every id of the catalog has a payment URL,
so no state with an absent payment URL ever has a display title to show;
moreover the text contains none of the five real display names. -/
theorem purchase_fallback_lacks_title :
    paymentLinks "course-b" = none ∧
    productContents "course-b" = none ∧
    catalogIds.all (fun i => (paymentLinks i).isSome) = true ∧
    (handlePurchase docH stH).opened =
      [("https://wa.me/5511958300001?text=" ++ encodeURIComponent undefinedMessage,
        "_blank", "noopener,noreferrer")] ∧
    catalogIds.all
      (fun i => !(containsSeq (utf8Bytes (jsStr (productNames i))) (utf8Bytes undefinedMessage))) =
      true := by
  decide

/-- C2 as amended: for every state in which the current product's payment
URL is absent, `handlePurchase` deterministically opens the fixed-number
WhatsApp URL `https://wa.me/5511958300001?text=...` and transitions to
Closed, never surfacing an error; but since `paymentLinks` and
`productNames` share the same five keys, the percent-decoded text embeds the
JS rendering "undefined" of the missed name lookup rather than a product
display title. -/
theorem purchase_fallback_whatsapp (doc : Doc) (st : ModalState)
    (hpay : paymentLinks (jsStr st.currentProduct) = none) :
    (handlePurchase doc st).opened = st.opened ++
      [("https://wa.me/5511958300001?text=" ++ encodeURIComponent undefinedMessage,
        "_blank", "noopener,noreferrer")] ∧
    percentDecode (encodeURIComponent undefinedMessage).data = some (utf8Bytes undefinedMessage) ∧
    containsSeq (utf8Bytes "undefined") (utf8Bytes undefinedMessage) = true ∧
    (handlePurchase doc st).isOpen = false := by
  have h := paymentLinks_none_productNames _ hpay
  refine ⟨?_, ?_, ?_, ?_⟩
  · rw [handlePurchase_fallback doc st hpay, h]; rfl
  · set_option maxRecDepth 10000 in decide
  · set_option maxRecDepth 10000 in decide
  · simp [handlePurchase, closeModal_isOpen]

def docJ : Doc := ⟨[(9, "course-b")], fun _ => []⟩

def stJ : ModalState :=
  { initialModalState with isOpen := true, currentProduct := some "course-b" }

/-- Witness for the amended C2 at the state open on the uncatalogued id
"course-b". -/
theorem purchase_fallback_whatsapp_witness :
    paymentLinks (jsStr stJ.currentProduct) = none ∧
    ((handlePurchase docJ stJ).opened = stJ.opened ++
      [("https://wa.me/5511958300001?text=" ++ encodeURIComponent undefinedMessage,
        "_blank", "noopener,noreferrer")] ∧
     percentDecode (encodeURIComponent undefinedMessage).data = some (utf8Bytes undefinedMessage) ∧
     containsSeq (utf8Bytes "undefined") (utf8Bytes undefinedMessage) = true ∧
     (handlePurchase docJ stJ).isOpen = false) :=
  ⟨by rfl, purchase_fallback_whatsapp docJ stJ (by rfl)⟩

end SiteModal
